import Mathlib

/-!
Shallow embedding of the client-side data layer of the freight documentation
tool (`src/assets/js/datastore.js`, class `DataStoreManager`), together with
proofs about its CRUD contract.

Modelling conventions:
* The sql.js database handle is modelled as an explicit `DBState`: one list of
  rows per table, plus the AUTOINCREMENT counter of each table and a logical
  clock that stands for `CURRENT_TIMESTAMP` (it advances on every insert).
  Rows are kept in insertion order; in every state the model itself builds,
  that order is ascending id order, which is the rowid order sql.js iterates.
* The manager object is `DataStore`: the nullable `db` handle and the
  `initialized` flag, exactly as in the constructor.
* JS truthiness coalescing (`x || 0`, `x || null`) is made explicit by
  `jsOrZero` / `jsStrOrNull` (`0`, `NaN`, `""`, `null`, `undefined` are falsy).
* SQL `REAL` values are modelled as `Int`: every number the program stores
  round-trips exactly through the REAL column, so no tolerance is needed.
* `persistToLocalStorage` is modelled on its happy path (the identity on the
  database state): no claim under proof concerns a persistence failure.
* `saveUser` is `async` and throws; its outcome is a `JsOutcome`.  All other
  operations catch internally and return plain result objects.
-/

namespace FreightStore

/-- A row of the `users` table (`id`, `username`, `password_hash`, `created_at`). -/
structure UserRow where
  id : Nat
  username : String
  passwordHash : String
  createdAt : Nat
deriving DecidableEq, Repr

/-- A row of the `freight_details` table. `company_profile_id` and
`custom_fields` are the two columns added by migration. -/
structure FreightRow where
  id : Nat
  userId : Nat
  companyProfileId : Option Nat
  origin : String
  destination : String
  goodsDescription : String
  weight : Int
  amount : Int
  discount : Int
  taxes : Int
  ewayBillNumber : Option String
  ewayBillDate : Option String
  customFields : Option String
  createdAt : Nat
deriving DecidableEq, Repr

/-- A row of the `document_history` table. -/
structure HistoryRow where
  id : Nat
  freightId : Nat
  documentType : String
  generatedAt : Nat
deriving DecidableEq, Repr

/-- A row of the `company_profiles` table (`is_default` is stored as 0/1;
every writer in the source writes `isDefault ? 1 : 0`, so it is a `Bool` here). -/
structure ProfileRow where
  id : Nat
  userId : Nat
  name : String
  address : Option String
  city : Option String
  state : Option String
  pincode : Option String
  gstNumber : Option String
  panNumber : Option String
  phone : Option String
  email : Option String
  website : Option String
  isDefault : Bool
  createdAt : Nat
deriving DecidableEq, Repr

/-- A row of the `custom_field_definitions` table. `options` holds the
already-JSON-stringified option list, as the column does. -/
structure CustomFieldRow where
  id : Nat
  userId : Nat
  fieldName : String
  fieldLabel : String
  fieldType : String
  isRequired : Bool
  options : Option String
  displayOrder : Int
  isActive : Bool
  createdAt : Nat
deriving DecidableEq, Repr

/-- The in-memory sql.js database: the five tables, each table's
AUTOINCREMENT counter, and the timestamp clock. -/
structure DBState where
  users : List UserRow
  freight : List FreightRow
  history : List HistoryRow
  profiles : List ProfileRow
  customFields : List CustomFieldRow
  nextUserId : Nat
  nextFreightId : Nat
  nextHistoryId : Nat
  nextProfileId : Nat
  nextCustomFieldId : Nat
  clock : Nat
deriving DecidableEq, Repr

/-- The `DataStoreManager` object: `this.db` (nullable handle) and
`this.initialized`. -/
structure DataStore where
  db : Option DBState
  initialized : Bool
deriving DecidableEq, Repr

/-- The caller-supplied freight record (`freightData`).  Fields that the JS
reads through `||` coalescing are `Option`s. -/
structure FreightData where
  userId : Nat
  origin : String
  destination : String
  goodsDescription : String
  weight : Int
  amount : Int
  discount : Option Int
  taxes : Option Int
  ewayBillNumber : Option String
  ewayBillDate : Option String
  companyProfileId : Option Nat
  customFields : Option String
deriving DecidableEq, Repr

/-- The caller-supplied company profile (`profileData`). -/
structure ProfileData where
  userId : Nat
  name : String
  address : Option String
  city : Option String
  state : Option String
  pincode : Option String
  gstNumber : Option String
  panNumber : Option String
  phone : Option String
  email : Option String
  website : Option String
  isDefault : Bool
deriving DecidableEq, Repr

/-- The caller-supplied custom field definition (`fieldData`).
`isActive` is `Option Bool`: the source stores `fieldData.isActive !== false ? 1 : 0`. -/
structure CustomFieldData where
  userId : Nat
  fieldName : String
  fieldLabel : String
  fieldType : String
  isRequired : Bool
  options : Option String
  displayOrder : Option Int
  isActive : Option Bool
deriving DecidableEq, Repr

/-- The object `getFreightDetails` / `getUserFreightRecords` build from a row:
note it carries neither `companyProfileId` nor `customFields`. -/
structure FreightRec where
  id : Nat
  userId : Nat
  origin : String
  destination : String
  goodsDescription : String
  weight : Int
  amount : Int
  discount : Int
  taxes : Int
  ewayBillNumber : Option String
  ewayBillDate : Option String
  createdAt : Nat
deriving DecidableEq, Repr

/-- Result shape `{ success, id?, error? }` of the save operations. -/
structure SaveResult where
  success : Bool
  id : Option Nat
  error : Option String
deriving DecidableEq, Repr

/-- Result shape `{ success, error? }`. -/
structure OpStatus where
  success : Bool
  error : Option String
deriving DecidableEq, Repr

/-- Result shape `{ valid, userId }` of `verifyUser`. -/
structure VerifyResult where
  valid : Bool
  userId : Option Nat
deriving DecidableEq, Repr

/-- The outcome of an async JS call as its caller observes it: a returned
value, or a rejection carrying the thrown error's message. -/
inductive JsOutcome (α : Type) where
  | ret : α → JsOutcome α
  | thrown : String → JsOutcome α
deriving DecidableEq, Repr

/-- JS `x || 0` on a numeric field (`null`/`undefined` are falsy; `0 || 0 = 0`). -/
def jsOrZero (x : Option Int) : Int :=
  match x with
  | some v => v
  | none => 0

/-- JS `x || null` on a string field: the empty string is falsy and collapses
to `null`. -/
def jsStrOrNull (x : Option String) : Option String :=
  match x with
  | some s => if s = "" then none else some s
  | none => none

/-- Insert `x` into `l` in front of the first element `y` with `le x y`. -/
def insertSorted (le : α → α → Bool) (x : α) : List α → List α
  | [] => [x]
  | y :: ys => if le x y then x :: y :: ys else y :: insertSorted le x ys

/-- Insertion sort with comparator `le`; models a SQL `ORDER BY`. -/
def sortBy (le : α → α → Bool) (l : List α) : List α :=
  l.foldr (insertSorted le) []

/-- `persistToLocalStorage` on its happy path: the database is serialized and
written out unchanged. -/
def persist (s : DBState) : DBState := s

/-- `saveFreightDetails(freightData)`: INSERT into `freight_details` listing
only the ten original columns — `company_profile_id` and `custom_fields` are
not in the column list, so those columns take their NULL default. -/
def saveFreightDetails (d : FreightData) (ds : DataStore) : SaveResult × DataStore :=
  if ds.initialized then
    match ds.db with
    | some s =>
      let row : FreightRow :=
        { id := s.nextFreightId
          userId := d.userId
          companyProfileId := none
          origin := d.origin
          destination := d.destination
          goodsDescription := d.goodsDescription
          weight := d.weight
          amount := d.amount
          discount := jsOrZero d.discount
          taxes := jsOrZero d.taxes
          ewayBillNumber := jsStrOrNull d.ewayBillNumber
          ewayBillDate := jsStrOrNull d.ewayBillDate
          customFields := none
          createdAt := s.clock }
      let s' := persist { s with freight := s.freight ++ [row],
                                 nextFreightId := s.nextFreightId + 1,
                                 clock := s.clock + 1 }
      ({ success := true, id := some row.id, error := none }, { ds with db := some s' })
    | none => ({ success := false, id := none, error := some "Failed to save data: null handle" }, ds)
  else
    ({ success := false, id := none, error := some "Database not initialized" }, ds)

/-- The object literal `getFreightDetails` builds from a fetched row. -/
def rowToRec (r : FreightRow) : FreightRec :=
  { id := r.id, userId := r.userId, origin := r.origin, destination := r.destination,
    goodsDescription := r.goodsDescription, weight := r.weight, amount := r.amount,
    discount := r.discount, taxes := r.taxes, ewayBillNumber := r.ewayBillNumber,
    ewayBillDate := r.ewayBillDate, createdAt := r.createdAt }

/-- `getFreightDetails(id)`: `SELECT * FROM freight_details WHERE id = ?`,
first matching row or null. -/
def getFreightDetails (i : Nat) (ds : DataStore) : Option FreightRec :=
  if ds.initialized then
    match ds.db with
    | some s => (s.freight.find? (fun r => r.id == i)).map rowToRec
    | none => none
  else none

/-- `getUserFreightRecords(userId)`:
`SELECT * FROM freight_details WHERE user_id = ? ORDER BY id DESC`. -/
def getUserFreightRecords (userId : Nat) (ds : DataStore) : List FreightRec :=
  if ds.initialized then
    match ds.db with
    | some s =>
      (sortBy (fun a b => decide (b.id ≤ a.id))
        (s.freight.filter (fun r => r.userId == userId))).map rowToRec
    | none => []
  else []

/-- `saveUser(username, passwordHash)`: throws `'Database not initialized'`
before init; on a duplicate username the UNIQUE-constraint failure of the
INSERT is re-thrown as `'Username already exists'`. -/
def saveUser (username passwordHash : String) (ds : DataStore) :
    JsOutcome OpStatus × DataStore :=
  if ds.initialized then
    match ds.db with
    | some s =>
      if s.users.any (fun u => u.username == username) then
        (JsOutcome.thrown "Username already exists", ds)
      else
        let row : UserRow :=
          { id := s.nextUserId, username := username,
            passwordHash := passwordHash, createdAt := s.clock }
        let s' := persist { s with users := s.users ++ [row],
                                   nextUserId := s.nextUserId + 1,
                                   clock := s.clock + 1 }
        (JsOutcome.ret { success := true, error := none }, { ds with db := some s' })
    | none => (JsOutcome.thrown "null database handle", ds)
  else
    (JsOutcome.thrown "Database not initialized", ds)

/-- `verifyUser(username, passwordHash)`. -/
def verifyUser (username passwordHash : String) (ds : DataStore) : VerifyResult :=
  if ds.initialized then
    match ds.db with
    | some s =>
      match s.users.find? (fun u => u.username == username) with
      | some u =>
        if u.passwordHash == passwordHash then { valid := true, userId := some u.id }
        else { valid := false, userId := none }
      | none => { valid := false, userId := none }
    | none => { valid := false, userId := none }
  else { valid := false, userId := none }

/-- `recordDocumentGeneration(freightId, documentType)`. -/
def recordDocumentGeneration (freightId : Nat) (documentType : String)
    (ds : DataStore) : OpStatus × DataStore :=
  if ds.initialized then
    match ds.db with
    | some s =>
      let row : HistoryRow :=
        { id := s.nextHistoryId, freightId := freightId,
          documentType := documentType, generatedAt := s.clock }
      let s' := persist { s with history := s.history ++ [row],
                                 nextHistoryId := s.nextHistoryId + 1,
                                 clock := s.clock + 1 }
      ({ success := true, error := none }, { ds with db := some s' })
    | none => ({ success := false, error := some "null database handle" }, ds)
  else
    ({ success := false, error := some "Database not initialized" }, ds)

/-- `getDocumentHistory(freightId)`:
`SELECT * FROM document_history WHERE freight_id = ? ORDER BY generated_at DESC`
(the JS camel-cases the column names; the model's rows already carry them). -/
def getDocumentHistory (freightId : Nat) (ds : DataStore) : List HistoryRow :=
  if ds.initialized then
    match ds.db with
    | some s =>
      sortBy (fun a b => decide (b.generatedAt ≤ a.generatedAt))
        (s.history.filter (fun h => h.freightId == freightId))
    | none => []
  else []

/-- `updateFreightDetails(id, freightData)`: UPDATE of the nine mutable
columns `WHERE id = ? AND user_id = ?`; the affected-row count is never
inspected. -/
def updateFreightDetails (i : Nat) (d : FreightData) (ds : DataStore) :
    OpStatus × DataStore :=
  if ds.initialized then
    match ds.db with
    | some s =>
      let upd := fun (r : FreightRow) =>
        if r.id == i && r.userId == d.userId then
          { r with origin := d.origin, destination := d.destination,
                   goodsDescription := d.goodsDescription,
                   weight := d.weight, amount := d.amount,
                   discount := jsOrZero d.discount, taxes := jsOrZero d.taxes,
                   ewayBillNumber := jsStrOrNull d.ewayBillNumber,
                   ewayBillDate := jsStrOrNull d.ewayBillDate }
        else r
      let s' := persist { s with freight := s.freight.map upd }
      ({ success := true, error := none }, { ds with db := some s' })
    | none => ({ success := false, error := some "Failed to update data: null handle" }, ds)
  else
    ({ success := false, error := some "Database not initialized" }, ds)

/-- `deleteFreightDetails(id, userId)`: first
`DELETE FROM document_history WHERE freight_id = ?` (no owner filter), then
`DELETE FROM freight_details WHERE id = ? AND user_id = ?`. -/
def deleteFreightDetails (i userId : Nat) (ds : DataStore) : OpStatus × DataStore :=
  if ds.initialized then
    match ds.db with
    | some s =>
      let s' := persist
        { s with history := s.history.filter (fun h => !(h.freightId == i)),
                 freight := s.freight.filter (fun r => !(r.id == i && r.userId == userId)) }
      ({ success := true, error := none }, { ds with db := some s' })
    | none => ({ success := false, error := some "Failed to delete data: null handle" }, ds)
  else
    ({ success := false, error := some "Database not initialized" }, ds)

/-- `clearAllData()`: drops the persisted blob, nulls the handle, clears the flag. -/
def clearAllData (_ds : DataStore) : OpStatus × DataStore :=
  ({ success := true, error := none }, { db := none, initialized := false })

/-- The map `unsetOtherDefaults` applies to each profile row:
`UPDATE company_profiles SET is_default = 0 WHERE user_id = ? AND id != ?`. -/
def unsetFn (userId exceptId : Nat) (p : ProfileRow) : ProfileRow :=
  if p.userId == userId && !(p.id == exceptId) then { p with isDefault := false } else p

/-- `unsetOtherDefaults(userId, exceptId)`. -/
def unsetOtherDefaults (userId exceptId : Nat) (s : DBState) : DBState :=
  { s with profiles := s.profiles.map (unsetFn userId exceptId) }

/-- `saveCompanyProfile(profileData)`: INSERT, then (when `isDefault` is set)
`unsetOtherDefaults` for the fresh id. -/
def saveCompanyProfile (d : ProfileData) (ds : DataStore) : SaveResult × DataStore :=
  if ds.initialized then
    match ds.db with
    | some s =>
      let row : ProfileRow :=
        { id := s.nextProfileId, userId := d.userId, name := d.name,
          address := jsStrOrNull d.address, city := jsStrOrNull d.city,
          state := jsStrOrNull d.state, pincode := jsStrOrNull d.pincode,
          gstNumber := jsStrOrNull d.gstNumber, panNumber := jsStrOrNull d.panNumber,
          phone := jsStrOrNull d.phone, email := jsStrOrNull d.email,
          website := jsStrOrNull d.website, isDefault := d.isDefault,
          createdAt := s.clock }
      let s1 := { s with profiles := s.profiles ++ [row],
                         nextProfileId := s.nextProfileId + 1,
                         clock := s.clock + 1 }
      let s2 := persist (if d.isDefault then unsetOtherDefaults d.userId row.id s1 else s1)
      ({ success := true, id := some row.id, error := none }, { ds with db := some s2 })
    | none => ({ success := false, id := none, error := some "null database handle" }, ds)
  else
    ({ success := false, id := none, error := some "Database not initialized" }, ds)

/-- The map `updateCompanyProfile` applies to each profile row: the UPDATE of
the eleven mutable columns `WHERE id = ? AND user_id = ?`. -/
def profileUpdFn (i : Nat) (d : ProfileData) (p : ProfileRow) : ProfileRow :=
  if p.id == i && p.userId == d.userId then
    { p with name := d.name, address := jsStrOrNull d.address,
             city := jsStrOrNull d.city, state := jsStrOrNull d.state,
             pincode := jsStrOrNull d.pincode, gstNumber := jsStrOrNull d.gstNumber,
             panNumber := jsStrOrNull d.panNumber, phone := jsStrOrNull d.phone,
             email := jsStrOrNull d.email, website := jsStrOrNull d.website,
             isDefault := d.isDefault }
  else p

/-- `updateCompanyProfile(id, profileData)`: the owner-filtered UPDATE, then
(when `isDefault` is set) `unsetOtherDefaults` for the given id — even when
the UPDATE matched no row. -/
def updateCompanyProfile (i : Nat) (d : ProfileData) (ds : DataStore) :
    OpStatus × DataStore :=
  if ds.initialized then
    match ds.db with
    | some s =>
      let s1 := { s with profiles := s.profiles.map (profileUpdFn i d) }
      let s2 := persist (if d.isDefault then unsetOtherDefaults d.userId i s1 else s1)
      ({ success := true, error := none }, { ds with db := some s2 })
    | none => ({ success := false, error := some "null database handle" }, ds)
  else
    ({ success := false, error := some "Database not initialized" }, ds)

/-- `getUserCompanyProfiles(userId)`:
`SELECT * FROM company_profiles WHERE user_id = ? ORDER BY is_default DESC, name ASC`. -/
def getUserCompanyProfiles (userId : Nat) (ds : DataStore) : List ProfileRow :=
  if ds.initialized then
    match ds.db with
    | some s =>
      sortBy (fun a b =>
          if a.isDefault == b.isDefault then !decide (b.name < a.name) else a.isDefault)
        (s.profiles.filter (fun p => p.userId == userId))
    | none => []
  else []

/-- `getDefaultCompanyProfile(userId)`:
`SELECT * FROM company_profiles WHERE user_id = ? AND is_default = 1 LIMIT 1`. -/
def getDefaultCompanyProfile (userId : Nat) (ds : DataStore) : Option ProfileRow :=
  if ds.initialized then
    match ds.db with
    | some s => s.profiles.find? (fun p => p.userId == userId && p.isDefault)
    | none => none
  else none

/-- `deleteCompanyProfile(id, userId)`. -/
def deleteCompanyProfile (i userId : Nat) (ds : DataStore) : OpStatus × DataStore :=
  if ds.initialized then
    match ds.db with
    | some s =>
      let s' := persist
        { s with profiles := s.profiles.filter (fun p => !(p.id == i && p.userId == userId)) }
      ({ success := true, error := none }, { ds with db := some s' })
    | none => ({ success := false, error := some "null database handle" }, ds)
  else
    ({ success := false, error := some "Database not initialized" }, ds)

/-- `saveCustomField(fieldData)`. -/
def saveCustomField (d : CustomFieldData) (ds : DataStore) : SaveResult × DataStore :=
  if ds.initialized then
    match ds.db with
    | some s =>
      let row : CustomFieldRow :=
        { id := s.nextCustomFieldId, userId := d.userId,
          fieldName := d.fieldName, fieldLabel := d.fieldLabel,
          fieldType := d.fieldType, isRequired := d.isRequired,
          options := d.options, displayOrder := jsOrZero d.displayOrder,
          isActive := !(d.isActive == some false), createdAt := s.clock }
      let s' := persist { s with customFields := s.customFields ++ [row],
                                 nextCustomFieldId := s.nextCustomFieldId + 1,
                                 clock := s.clock + 1 }
      ({ success := true, id := some row.id, error := none }, { ds with db := some s' })
    | none => ({ success := false, id := none, error := some "null database handle" }, ds)
  else
    ({ success := false, id := none, error := some "Database not initialized" }, ds)

/-- `getUserCustomFields(userId)`: active fields,
`ORDER BY display_order ASC, field_label ASC`. -/
def getUserCustomFields (userId : Nat) (ds : DataStore) : List CustomFieldRow :=
  if ds.initialized then
    match ds.db with
    | some s =>
      sortBy (fun a b =>
          if a.displayOrder == b.displayOrder then !decide (b.fieldLabel < a.fieldLabel)
          else decide (a.displayOrder ≤ b.displayOrder))
        (s.customFields.filter (fun f => f.userId == userId && f.isActive))
    | none => []
  else []

/-- `deleteCustomField(id, userId)`: soft delete, flips `is_active` to 0. -/
def deleteCustomField (i userId : Nat) (ds : DataStore) : OpStatus × DataStore :=
  if ds.initialized then
    match ds.db with
    | some s =>
      let s' := persist
        { s with customFields := s.customFields.map (fun f =>
            if f.id == i && f.userId == userId then { f with isActive := false } else f) }
      ({ success := true, error := none }, { ds with db := some s' })
    | none => ({ success := false, error := some "null database handle" }, ds)
  else
    ({ success := false, error := some "Database not initialized" }, ds)

/-- The `data` object of a backup: every table dumped verbatim. -/
structure Snapshot where
  users : List UserRow
  freight : List FreightRow
  history : List HistoryRow
  profiles : List ProfileRow
  customFields : List CustomFieldRow
deriving DecidableEq, Repr

/-- The backup JSON: `{ version, exportDate, data }` (the export date does not
affect any behaviour and is not modelled). -/
structure Backup where
  version : String
  data : Snapshot
deriving DecidableEq, Repr

/-- The outcome of `exportBackup`: `{ success: true, data }` or
`{ success: false, error }`. -/
inductive ExportResult where
  | ok : Backup → ExportResult
  | err : String → ExportResult
deriving DecidableEq, Repr

/-- `exportBackup()`: dumps each table with `SELECT *`, which iterates rows in
rowid (= id) order. -/
def exportBackup (ds : DataStore) : ExportResult :=
  if ds.initialized then
    match ds.db with
    | some s =>
      ExportResult.ok
        { version := "1.0"
          data :=
            { users := sortBy (fun a b => decide (a.id ≤ b.id)) s.users
              freight := sortBy (fun a b => decide (a.id ≤ b.id)) s.freight
              history := sortBy (fun a b => decide (a.id ≤ b.id)) s.history
              profiles := sortBy (fun a b => decide (a.id ≤ b.id)) s.profiles
              customFields := sortBy (fun a b => decide (a.id ≤ b.id)) s.customFields } }
    | none => ExportResult.err "null database handle"
  else ExportResult.err "Database not initialized"

/-- A bulk INSERT loop: rows are inserted one by one into `acc`; a row whose
key collides with an already-inserted one (`acc.any (g r)`) makes the engine
throw, leaving the rows inserted so far.  Returns the final list and whether
every insert succeeded. -/
def bulkInsert (g : α → α → Bool) (rows acc : List α) : List α × Bool :=
  match rows with
  | [] => (acc, true)
  | r :: rest => if acc.any (g r) then (acc, false) else bulkInsert g rest (acc ++ [r])

/-- Next AUTOINCREMENT value after explicit-id inserts: one past the largest id. -/
def nextAuto (ids : List Nat) : Nat := List.foldr max 0 ids + 1

/-- The database state `importBackup` leaves behind: freshly created schema
holding the given rows. -/
def importedState (us : List UserRow) (fr : List FreightRow) (hi : List HistoryRow)
    (pr : List ProfileRow) (cf : List CustomFieldRow) : DBState :=
  { users := us, freight := fr, history := hi, profiles := pr, customFields := cf,
    nextUserId := nextAuto (us.map (fun r => r.id)),
    nextFreightId := nextAuto (fr.map (fun r => r.id)),
    nextHistoryId := nextAuto (hi.map (fun r => r.id)),
    nextProfileId := nextAuto (pr.map (fun r => r.id)),
    nextCustomFieldId := nextAuto (cf.map (fun r => r.id)),
    clock := 0 }

/-- `importBackup(backupData)`: validates the version/shape marker, wipes the
current database (`clearAllData`), recreates the schema and bulk-inserts each
table's rows with their original ids; a constraint violation is caught and
reported as `{ success: false, error }`, with the partially imported handle
left in place. -/
def importBackup (b : Backup) (ds : DataStore) : OpStatus × DataStore :=
  if b.version == "" then
    ({ success := false, error := some "Invalid backup file format" }, ds)
  else
    match bulkInsert (fun r x => x.id == r.id || x.username == r.username) b.data.users [] with
    | (us, false) =>
      ({ success := false, error := some "UNIQUE constraint failed: users" },
       { db := some (importedState us [] [] [] []), initialized := true })
    | (us, true) =>
      match bulkInsert (fun r x => x.id == r.id) b.data.freight [] with
      | (fr, false) =>
        ({ success := false, error := some "UNIQUE constraint failed: freight_details" },
         { db := some (importedState us fr [] [] []), initialized := true })
      | (fr, true) =>
        match bulkInsert (fun r x => x.id == r.id) b.data.history [] with
        | (hi, false) =>
          ({ success := false, error := some "UNIQUE constraint failed: document_history" },
           { db := some (importedState us fr hi [] []), initialized := true })
        | (hi, true) =>
          match bulkInsert (fun r x => x.id == r.id) b.data.profiles [] with
          | (pr, false) =>
            ({ success := false, error := some "UNIQUE constraint failed: company_profiles" },
             { db := some (importedState us fr hi pr []), initialized := true })
          | (pr, true) =>
            match bulkInsert (fun r x => x.id == r.id) b.data.customFields [] with
            | (cf, false) =>
              ({ success := false,
                 error := some "UNIQUE constraint failed: custom_field_definitions" },
               { db := some (importedState us fr hi pr cf), initialized := true })
            | (cf, true) =>
              ({ success := true, error := none },
               { db := some (persist (importedState us fr hi pr cf)), initialized := true })

/-- The schema facts the Schema Migrator probes or changes: which tables
exist, whether `freight_details` has the two migrated columns, and which of
the migration-managed indexes exist. -/
structure Schema where
  usersTable : Bool
  freightTable : Bool
  historyTable : Bool
  companyProfilesTable : Bool
  customFieldsTable : Bool
  freightHasCompanyProfileId : Bool
  freightHasCustomFields : Bool
  idxCompanyProfilesUserId : Bool
  idxCustomFieldsUserId : Bool
  idxFreightCompanyProfile : Bool
deriving DecidableEq, Repr

/-- `tableExists(tableName)`: probe of `sqlite_master`. -/
def tableExists (s : Schema) (name : String) : Bool :=
  if name == "users" then s.usersTable
  else if name == "freight_details" then s.freightTable
  else if name == "document_history" then s.historyTable
  else if name == "company_profiles" then s.companyProfilesTable
  else if name == "custom_field_definitions" then s.customFieldsTable
  else false

/-- `columnExists(tableName, columnName)`: `PRAGMA table_info` probe — empty
(hence false) when the table is missing.  Only the two columns the migrator
asks about are tracked. -/
def columnExists (s : Schema) (t c : String) : Bool :=
  if t == "freight_details" then
    s.freightTable &&
      (if c == "company_profile_id" then s.freightHasCompanyProfileId
       else if c == "custom_fields" then s.freightHasCustomFields
       else false)
  else false

/-- Migration step 3: `ALTER TABLE freight_details ADD COLUMN
company_profile_id INTEGER` plus its index, guarded by `columnExists`; the
ALTER throws when `freight_details` itself does not exist. -/
def migrateCompanyProfileColumn (s : Schema) : Except String Schema :=
  if columnExists s "freight_details" "company_profile_id" then Except.ok s
  else if s.freightTable then
    Except.ok { s with freightHasCompanyProfileId := true, idxFreightCompanyProfile := true }
  else Except.error "no such table: freight_details"

/-- Migration step 4: `ALTER TABLE freight_details ADD COLUMN custom_fields
TEXT`, guarded by `columnExists`. -/
def migrateCustomFieldsColumn (s : Schema) : Except String Schema :=
  if columnExists s "freight_details" "custom_fields" then Except.ok s
  else if s.freightTable then Except.ok { s with freightHasCustomFields := true }
  else Except.error "no such table: freight_details"

/-- Migration step 1: `CREATE TABLE IF NOT EXISTS company_profiles ...` and
its user-id index, guarded by `tableExists`. -/
def addCompanyProfilesTable (s : Schema) : Schema :=
  if tableExists s "company_profiles" then s
  else { s with companyProfilesTable := true, idxCompanyProfilesUserId := true }

/-- Migration step 2: `CREATE TABLE IF NOT EXISTS custom_field_definitions ...`
and its user-id index, guarded by `tableExists`. -/
def addCustomFieldsTable (s : Schema) : Schema :=
  if tableExists s "custom_field_definitions" then s
  else { s with customFieldsTable := true, idxCustomFieldsUserId := true }

/-- `runMigrations()`: the fixed ordered list of idempotent steps — add the
`company_profiles` table and index, add the `custom_field_definitions` table
and index, add the two `freight_details` columns — each guarded by a
metadata probe; any throw propagates. -/
def runMigrations (s : Schema) : Except String Schema :=
  match migrateCompanyProfileColumn (addCustomFieldsTable (addCompanyProfilesTable s)) with
  | Except.error e => Except.error e
  | Except.ok s3 => migrateCustomFieldsColumn s3

/-! Concrete states and inputs used by the witness and counterexample
theorems below. -/

/-- The empty, freshly created database (before even the admin seed). -/
def emptyDB : DBState :=
  { users := [], freight := [], history := [], profiles := [], customFields := [],
    nextUserId := 1, nextFreightId := 1, nextHistoryId := 1, nextProfileId := 1,
    nextCustomFieldId := 1, clock := 0 }

/-- An initialized store over the empty database. -/
def emptyStore : DataStore := { db := some emptyDB, initialized := true }

/-- A store before (or after a failed) initialization. -/
def uninitStore : DataStore := { db := none, initialized := false }

/-- The seeded admin account. -/
def sampleUserRow : UserRow :=
  { id := 1, username := "admin", passwordHash := "240be5...", createdAt := 0 }

/-- A freight record of owner 1 (the record of concrete scenario 2). -/
def sampleFreightRow : FreightRow :=
  { id := 1, userId := 1, companyProfileId := none, origin := "Mumbai",
    destination := "Delhi", goodsDescription := "Electronics", weight := 100,
    amount := 5000, discount := 100, taxes := 900, ewayBillNumber := none,
    ewayBillDate := none, customFields := none, createdAt := 1 }

/-- First audit row for freight record 1. -/
def sampleHistoryRow1 : HistoryRow :=
  { id := 1, freightId := 1, documentType := "bilty", generatedAt := 2 }

/-- Second audit row for freight record 1. -/
def sampleHistoryRow2 : HistoryRow :=
  { id := 2, freightId := 1, documentType := "invoice", generatedAt := 3 }

/-- A non-default company profile of owner 1. -/
def sampleProfileRow : ProfileRow :=
  { id := 1, userId := 1, name := "Acme Transport", address := none, city := none,
    state := none, pincode := none, gstNumber := none, panNumber := none,
    phone := none, email := none, website := none, isDefault := false,
    createdAt := 4 }

/-- A custom field definition of owner 1. -/
def sampleCustomFieldRow : CustomFieldRow :=
  { id := 1, userId := 1, fieldName := "po_number", fieldLabel := "PO Number",
    fieldType := "text", isRequired := false, options := none, displayOrder := 0,
    isActive := true, createdAt := 5 }

/-- A small populated database: the admin, one freight record of owner 1 with
two document-history rows, one company profile, one custom field. -/
def sampleDB : DBState :=
  { users := [sampleUserRow], freight := [sampleFreightRow],
    history := [sampleHistoryRow1, sampleHistoryRow2],
    profiles := [sampleProfileRow], customFields := [sampleCustomFieldRow],
    nextUserId := 2, nextFreightId := 2, nextHistoryId := 3, nextProfileId := 2,
    nextCustomFieldId := 2, clock := 6 }

/-- An initialized store over `sampleDB`. -/
def sampleStore : DataStore := { db := some sampleDB, initialized := true }

/-- A freight input that fills every field, in particular `companyProfileId`
and `customFields`. -/
def fullFreightData : FreightData :=
  { userId := 1, origin := "Mumbai", destination := "Delhi",
    goodsDescription := "Electronics", weight := 100, amount := 5000,
    discount := some 100, taxes := some 900, ewayBillNumber := some "EWB123",
    ewayBillDate := some "2024-01-01", companyProfileId := some 5,
    customFields := some "serialized custom fields" }

/-- A company profile input of owner 1 with the default flag set. -/
def defaultProfileData : ProfileData :=
  { userId := 1, name := "New Name", address := none, city := none, state := none,
    pincode := none, gstNumber := none, panNumber := none, phone := none,
    email := none, website := none, isDefault := true }

/-- A custom field input of owner 1. -/
def sampleCustomFieldData : CustomFieldData :=
  { userId := 1, fieldName := "lr_number", fieldLabel := "LR Number",
    fieldType := "text", isRequired := false, options := none,
    displayOrder := some 1, isActive := none }

/-- A company profile of owner 1 that is currently the default. -/
def defaultProfileRow : ProfileRow :=
  { sampleProfileRow with isDefault := true }

/-- A database in which owner 1 has exactly one default profile. -/
def oneDefaultDB : DBState :=
  { sampleDB with profiles := [defaultProfileRow] }

/-- An initialized store over `oneDefaultDB`. -/
def oneDefaultStore : DataStore := { db := some oneDefaultDB, initialized := true }

/-- How many profiles of owner `uid` carry the default flag. -/
def defaultCount (uid : Nat) (l : List ProfileRow) : Nat :=
  (l.filter (fun p => p.userId == uid && p.isDefault)).length

/-- The schema of a database persisted before the company-profile /
custom-field features existed: the three original tables only. -/
def legacySchema : Schema :=
  { usersTable := true, freightTable := true, historyTable := true,
    companyProfilesTable := false, customFieldsTable := false,
    freightHasCompanyProfileId := false, freightHasCustomFields := false,
    idxCompanyProfilesUserId := false, idxCustomFieldsUserId := false,
    idxFreightCompanyProfile := false }

/-- The fully migrated schema. -/
def migratedSchema : Schema :=
  { usersTable := true, freightTable := true, historyTable := true,
    companyProfilesTable := true, customFieldsTable := true,
    freightHasCompanyProfileId := true, freightHasCustomFields := true,
    idxCompanyProfilesUserId := true, idxCustomFieldsUserId := true,
    idxFreightCompanyProfile := true }

/-! Helper lemmas about the list combinators of the model. -/

theorem mem_insertSorted {le : α → α → Bool} {x a : α} {l : List α} :
    a ∈ insertSorted le x l ↔ a = x ∨ a ∈ l := by
  induction l with
  | nil => simp [insertSorted]
  | cons y ys ih =>
    simp only [insertSorted]
    split
    · simp [List.mem_cons]
    · simp only [List.mem_cons, ih]
      tauto

theorem perm_insertSorted (le : α → α → Bool) (x : α) (l : List α) :
    (insertSorted le x l).Perm (x :: l) := by
  induction l with
  | nil => simp [insertSorted]
  | cons y ys ih =>
    simp only [insertSorted]
    split
    · exact List.Perm.refl _
    · exact (ih.cons y).trans (List.Perm.swap x y ys)

theorem perm_sortBy (le : α → α → Bool) (l : List α) : (sortBy le l).Perm l := by
  induction l with
  | nil => simp [sortBy]
  | cons a as ih =>
    have : sortBy le (a :: as) = insertSorted le a (sortBy le as) := rfl
    rw [this]
    exact (perm_insertSorted le a (sortBy le as)).trans (ih.cons a)

theorem mem_sortBy {le : α → α → Bool} {a : α} {l : List α} :
    a ∈ sortBy le l ↔ a ∈ l :=
  (perm_sortBy le l).mem_iff

theorem find_append_fresh {l : List FreightRow} {row : FreightRow} {n : Nat}
    (h : ∀ r ∈ l, r.id ≠ n) (hrow : row.id = n) :
    (l ++ [row]).find? (fun r => r.id == n) = some row := by
  induction l with
  | nil => simp [List.find?, hrow]
  | cons a as ih =>
    have ha : (a.id == n) = false := by
      simp only [beq_eq_false_iff_ne, ne_eq]
      exact h a (List.mem_cons_self a as)
    simp only [List.cons_append, List.find?_cons, ha]
    exact ih (fun r hr => h r (List.mem_cons_of_mem a hr))

theorem bulkInsert_ok {g : α → α → Bool} (rows acc : List α)
    (h : (acc ++ rows).Pairwise (fun a b => g b a = false)) :
    bulkInsert g rows acc = (acc ++ rows, true) := by
  induction rows generalizing acc with
  | nil => simp [bulkInsert]
  | cons r rest ih =>
    obtain ⟨-, -, h3⟩ := List.pairwise_append.mp h
    have hany : acc.any (g r) = false := by
      rw [List.any_eq_false]
      intro a ha
      simp [h3 a ha r (List.mem_cons_self r rest)]
    have hre : acc ++ r :: rest = (acc ++ [r]) ++ rest := by simp
    rw [hre] at h
    simp only [bulkInsert, hany, Bool.false_eq_true, if_false]
    rw [ih (acc ++ [r]) h, ← hre]

/-! Helper lemmas about the migration steps. -/

theorem tableExists_cp (s : Schema) :
    tableExists s "company_profiles" = s.companyProfilesTable := rfl

theorem tableExists_cf (s : Schema) :
    tableExists s "custom_field_definitions" = s.customFieldsTable := rfl

theorem columnExists_cpid (s : Schema) :
    columnExists s "freight_details" "company_profile_id" =
      (s.freightTable && s.freightHasCompanyProfileId) := rfl

theorem columnExists_cfields (s : Schema) :
    columnExists s "freight_details" "custom_fields" =
      (s.freightTable && s.freightHasCustomFields) := rfl

theorem addCompanyProfilesTable_spec (s : Schema) :
    (addCompanyProfilesTable s).companyProfilesTable = true ∧
    (addCompanyProfilesTable s).customFieldsTable = s.customFieldsTable ∧
    (addCompanyProfilesTable s).freightTable = s.freightTable ∧
    (addCompanyProfilesTable s).freightHasCompanyProfileId = s.freightHasCompanyProfileId ∧
    (addCompanyProfilesTable s).freightHasCustomFields = s.freightHasCustomFields := by
  unfold addCompanyProfilesTable
  rw [tableExists_cp]
  split <;> simp_all

theorem addCustomFieldsTable_spec (s : Schema) :
    (addCustomFieldsTable s).customFieldsTable = true ∧
    (addCustomFieldsTable s).companyProfilesTable = s.companyProfilesTable ∧
    (addCustomFieldsTable s).freightTable = s.freightTable ∧
    (addCustomFieldsTable s).freightHasCompanyProfileId = s.freightHasCompanyProfileId ∧
    (addCustomFieldsTable s).freightHasCustomFields = s.freightHasCustomFields := by
  unfold addCustomFieldsTable
  rw [tableExists_cf]
  split <;> simp_all

theorem migrateCompanyProfileColumn_spec {s t : Schema}
    (h : migrateCompanyProfileColumn s = Except.ok t) :
    t.freightTable = true ∧ t.freightHasCompanyProfileId = true ∧
    t.companyProfilesTable = s.companyProfilesTable ∧
    t.customFieldsTable = s.customFieldsTable ∧
    t.freightHasCustomFields = s.freightHasCustomFields := by
  unfold migrateCompanyProfileColumn at h
  rw [columnExists_cpid] at h
  by_cases h1 : (s.freightTable && s.freightHasCompanyProfileId) = true
  · rw [if_pos h1] at h
    obtain ⟨h2, h3⟩ := Bool.and_eq_true_iff.mp h1
    cases h
    exact ⟨h2, h3, rfl, rfl, rfl⟩
  · rw [if_neg h1] at h
    by_cases h2 : s.freightTable = true
    · rw [if_pos h2] at h
      cases h
      exact ⟨h2, rfl, rfl, rfl, rfl⟩
    · rw [if_neg h2] at h
      cases h

theorem migrateCustomFieldsColumn_spec {s t : Schema}
    (h : migrateCustomFieldsColumn s = Except.ok t) :
    t.freightTable = true ∧ t.freightHasCustomFields = true ∧
    t.companyProfilesTable = s.companyProfilesTable ∧
    t.customFieldsTable = s.customFieldsTable ∧
    t.freightHasCompanyProfileId = s.freightHasCompanyProfileId := by
  unfold migrateCustomFieldsColumn at h
  rw [columnExists_cfields] at h
  by_cases h1 : (s.freightTable && s.freightHasCustomFields) = true
  · rw [if_pos h1] at h
    obtain ⟨h2, h3⟩ := Bool.and_eq_true_iff.mp h1
    cases h
    exact ⟨h2, h3, rfl, rfl, rfl⟩
  · rw [if_neg h1] at h
    by_cases h2 : s.freightTable = true
    · rw [if_pos h2] at h
      cases h
      exact ⟨h2, rfl, rfl, rfl, rfl⟩
    · rw [if_neg h2] at h
      cases h

theorem runMigrations_flags {s t : Schema} (h : runMigrations s = Except.ok t) :
    t.companyProfilesTable = true ∧ t.customFieldsTable = true ∧
    t.freightTable = true ∧ t.freightHasCompanyProfileId = true ∧
    t.freightHasCustomFields = true := by
  unfold runMigrations at h
  cases hm : migrateCompanyProfileColumn (addCustomFieldsTable (addCompanyProfilesTable s)) with
  | error e => rw [hm] at h; cases h
  | ok s3 =>
    rw [hm] at h
    obtain ⟨a1, a2, a3, a4, a5⟩ := addCompanyProfilesTable_spec s
    obtain ⟨b1, b2, b3, b4, b5⟩ := addCustomFieldsTable_spec (addCompanyProfilesTable s)
    obtain ⟨c1, c2, c3, c4, c5⟩ := migrateCompanyProfileColumn_spec hm
    obtain ⟨d1, d2, d3, d4, d5⟩ := migrateCustomFieldsColumn_spec h
    refine ⟨?_, ?_, d1, ?_, d2⟩
    · rw [d3, c3, b2, a1]
    · rw [d4, c4, b1]
    · rw [d5, c2]

theorem runMigrations_of_flags {t : Schema}
    (h1 : t.companyProfilesTable = true) (h2 : t.customFieldsTable = true)
    (h3 : t.freightTable = true) (h4 : t.freightHasCompanyProfileId = true)
    (h5 : t.freightHasCustomFields = true) :
    runMigrations t = Except.ok t := by
  unfold runMigrations addCompanyProfilesTable addCustomFieldsTable
    migrateCompanyProfileColumn migrateCustomFieldsColumn
  rw [tableExists_cp, tableExists_cf]
  simp [h1, h2, h3, h4, h5, columnExists_cpid, columnExists_cfields]

/-! The claims. -/

/-- C5: Idempotent migration — if `runMigrations` completes successfully once,
running it again succeeds and leaves the schema state (tables, columns,
indexes) identical to the state after the first run. -/
theorem migration_idempotent (s t : Schema) (h : runMigrations s = Except.ok t) :
    runMigrations t = Except.ok t := by
  obtain ⟨h1, h2, h3, h4, h5⟩ := runMigrations_flags h
  exact runMigrations_of_flags h1 h2 h3 h4 h5

/-- Witness for C5: migrating a legacy three-table schema succeeds, and a
second run returns the migrated schema unchanged. -/
theorem migration_idempotent_witness :
    runMigrations legacySchema = Except.ok migratedSchema ∧
    runMigrations migratedSchema = Except.ok migratedSchema :=
  ⟨rfl, migration_idempotent legacySchema migratedSchema rfl⟩

/-- C1: Ownership isolation — a freight record saved with owner `A` never
appears in `getUserFreightRecords B` for `B ≠ A` (every returned record's
owner differs from `A`), and `deleteFreightDetails` called by `B` on a record
owned by `A` leaves that record in the database. -/
theorem freight_ownership_isolation
    (ds : DataStore) (s : DBState) (hinit : ds.initialized = true)
    (hdb : ds.db = some s) (A B : Nat) (hAB : A ≠ B) (d : FreightData)
    (_hd : d.userId = A) :
    (∀ rec ∈ getUserFreightRecords B (saveFreightDetails d ds).2, rec.userId ≠ A) ∧
    (∀ r ∈ s.freight, r.userId = A →
      ∃ s', (deleteFreightDetails r.id B ds).2.db = some s' ∧ r ∈ s'.freight) := by
  constructor
  · intro rec hrec
    simp only [saveFreightDetails, hinit, hdb, if_true, persist] at hrec
    simp only [getUserFreightRecords, if_true] at hrec
    obtain ⟨r, hr, hre⟩ := List.mem_map.mp hrec
    rw [mem_sortBy] at hr
    have hB : r.userId = B := by
      have := List.of_mem_filter hr
      simpa using this
    rw [← hre]
    simp only [rowToRec, hB]
    exact fun hc => hAB hc.symm
  · intro r hr hA
    simp only [deleteFreightDetails, hinit, hdb, if_true, persist]
    refine ⟨_, rfl, ?_⟩
    refine List.mem_filter.mpr ⟨hr, ?_⟩
    have hB : (r.userId == B) = false := by
      rw [beq_eq_false_iff_ne, hA]
      exact hAB
    simp [hB]

/-- Witness for C1 at owners 1 and 2 over the sample database. -/
theorem freight_ownership_isolation_witness :
    sampleStore.initialized = true ∧ sampleStore.db = some sampleDB ∧
    (1 : Nat) ≠ 2 ∧ fullFreightData.userId = 1 ∧
    ((∀ rec ∈ getUserFreightRecords 2 (saveFreightDetails fullFreightData sampleStore).2,
        rec.userId ≠ 1) ∧
     (∀ r ∈ sampleDB.freight, r.userId = 1 →
       ∃ s', (deleteFreightDetails r.id 2 sampleStore).2.db = some s' ∧ r ∈ s'.freight)) :=
  ⟨rfl, rfl, by decide, rfl,
   freight_ownership_isolation sampleStore sampleDB rfl rfl 1 2 (by decide)
     fullFreightData rfl⟩

/-- C3: Username uniqueness — on a database with no user named `u`, the first
`saveUser` succeeds; a second `saveUser` with the same username fails with the
distinguishable message "Username already exists" (not the raw engine error)
and leaves the whole store, in particular the first user's row, unchanged. -/
theorem username_uniqueness
    (ds : DataStore) (s : DBState) (hinit : ds.initialized = true)
    (hdb : ds.db = some s) (u h1 h2 : String)
    (hfree : ∀ w ∈ s.users, w.username ≠ u) :
    (saveUser u h1 ds).1 = JsOutcome.ret { success := true, error := none } ∧
    saveUser u h2 (saveUser u h1 ds).2 =
      (JsOutcome.thrown "Username already exists", (saveUser u h1 ds).2) ∧
    ∃ s1, (saveUser u h1 ds).2.db = some s1 ∧
      ({ id := s.nextUserId, username := u, passwordHash := h1,
         createdAt := s.clock } : UserRow) ∈ s1.users := by
  have hany : s.users.any (fun w => w.username == u) = false := by
    rw [List.any_eq_false]
    intro w hw
    simp [hfree w hw]
  have key : saveUser u h1 ds =
      (JsOutcome.ret { success := true, error := none },
       { ds with db := some { s with
           users := s.users ++ [({ id := s.nextUserId, username := u, passwordHash := h1, createdAt := s.clock } : UserRow)],
           nextUserId := s.nextUserId + 1, clock := s.clock + 1 } }) := by
    simp only [saveUser, hinit, hdb, if_true, hany, Bool.false_eq_true, if_false, persist]
  rw [key]
  have hany2 : ((s.users ++ [({ id := s.nextUserId, username := u, passwordHash := h1, createdAt := s.clock } : UserRow)]).any (fun w => w.username == u)) = true := by
    rw [List.any_eq_true]
    exact ⟨_, List.mem_append_right _ (List.mem_singleton_self _), by simp⟩
  refine ⟨rfl, ?_, _, rfl, List.mem_append_right _ (List.mem_singleton_self _)⟩
  simp only [saveUser, hinit, hany2, if_true]

/-- Witness for C3: registering "bob" twice on the sample database. -/
theorem username_uniqueness_witness :
    sampleStore.initialized = true ∧ sampleStore.db = some sampleDB ∧
    (∀ w ∈ sampleDB.users, w.username ≠ "bob") ∧
    ((saveUser "bob" "hashA" sampleStore).1 =
        JsOutcome.ret { success := true, error := none } ∧
      saveUser "bob" "hashB" (saveUser "bob" "hashA" sampleStore).2 =
        (JsOutcome.thrown "Username already exists",
         (saveUser "bob" "hashA" sampleStore).2) ∧
      ∃ s1, (saveUser "bob" "hashA" sampleStore).2.db = some s1 ∧
        ({ id := sampleDB.nextUserId, username := "bob", passwordHash := "hashA",
           createdAt := sampleDB.clock } : UserRow) ∈ s1.users) :=
  ⟨rfl, rfl, by decide,
   username_uniqueness sampleStore sampleDB rfl rfl "bob" "hashA" "hashB" (by decide)⟩

/-- C6: Cascade delete of audit rows — deleting a freight record through its
owner removes every `document_history` row of that record and the record
itself, and a subsequent `getDocumentHistory` returns the empty array. -/
theorem cascade_delete_history
    (ds : DataStore) (s : DBState) (hinit : ds.initialized = true)
    (hdb : ds.db = some s) (r : FreightRow) (_hr : r ∈ s.freight) (u : Nat)
    (hu : r.userId = u) :
    (deleteFreightDetails r.id u ds).1 = { success := true, error := none } ∧
    ∃ s', (deleteFreightDetails r.id u ds).2.db = some s' ∧
      (∀ h ∈ s'.history, h.freightId ≠ r.id) ∧
      getDocumentHistory r.id (deleteFreightDetails r.id u ds).2 = [] ∧
      r ∉ s'.freight := by
  have key : deleteFreightDetails r.id u ds =
      ({ success := true, error := none },
       { ds with db := some { s with
           history := s.history.filter (fun h => !(h.freightId == r.id)),
           freight := s.freight.filter (fun x => !(x.id == r.id && x.userId == u)) } }) := by
    simp only [deleteFreightDetails, hinit, hdb, if_true, persist]
  rw [key]
  refine ⟨rfl, _, rfl, ?_, ?_, ?_⟩
  · intro h hh
    have := List.of_mem_filter hh
    simpa using this
  · simp only [getDocumentHistory, hinit, if_true]
    rw [List.filter_filter]
    simp [sortBy]
  · intro hmem
    have := List.of_mem_filter hmem
    simp [hu] at this

/-- Witness for C6: deleting the sample freight record (owner 1, two history
rows) through owner 1. -/
theorem cascade_delete_history_witness :
    sampleStore.initialized = true ∧ sampleStore.db = some sampleDB ∧
    sampleFreightRow ∈ sampleDB.freight ∧ sampleFreightRow.userId = 1 ∧
    ((deleteFreightDetails sampleFreightRow.id 1 sampleStore).1 =
        { success := true, error := none } ∧
      ∃ s', (deleteFreightDetails sampleFreightRow.id 1 sampleStore).2.db = some s' ∧
        (∀ h ∈ s'.history, h.freightId ≠ sampleFreightRow.id) ∧
        getDocumentHistory sampleFreightRow.id
          (deleteFreightDetails sampleFreightRow.id 1 sampleStore).2 = [] ∧
        sampleFreightRow ∉ s'.freight) :=
  ⟨rfl, rfl, by decide, rfl,
   cascade_delete_history sampleStore sampleDB rfl rfl sampleFreightRow (by decide) 1 rfl⟩

/-- C9: The cascade delete of the audit trail is not filtered by owner —
`deleteFreightDetails i u` removes exactly the `document_history` rows with
`freight_id = i`, whoever owns the freight record, while a parent freight row
of a different owner survives. -/
theorem cascade_delete_unfiltered
    (ds : DataStore) (s : DBState) (hinit : ds.initialized = true)
    (hdb : ds.db = some s) (i u : Nat) :
    ∃ s', (deleteFreightDetails i u ds).2.db = some s' ∧
      s'.history = s.history.filter (fun h => !(h.freightId == i)) ∧
      (∀ h ∈ s'.history, h.freightId ≠ i) ∧
      (∀ r ∈ s.freight, r.userId ≠ u → r ∈ s'.freight) := by
  have key : deleteFreightDetails i u ds =
      ({ success := true, error := none },
       { ds with db := some { s with
           history := s.history.filter (fun h => !(h.freightId == i)),
           freight := s.freight.filter (fun x => !(x.id == i && x.userId == u)) } }) := by
    simp only [deleteFreightDetails, hinit, hdb, if_true, persist]
  rw [key]
  refine ⟨_, rfl, rfl, ?_, ?_⟩
  · intro h hh
    have := List.of_mem_filter hh
    simpa using this
  · intro r hr hru
    refine List.mem_filter.mpr ⟨hr, ?_⟩
    have : (r.userId == u) = false := by
      rw [beq_eq_false_iff_ne]
      exact hru
    simp [this]

/-- Witness for C9: owner 2 calls delete on freight record 1 (owned by 1);
both history rows disappear while the freight row survives. -/
theorem cascade_delete_unfiltered_witness :
    sampleStore.initialized = true ∧ sampleStore.db = some sampleDB ∧
    (∃ s', (deleteFreightDetails 1 2 sampleStore).2.db = some s' ∧
      s'.history = sampleDB.history.filter (fun h => !(h.freightId == 1)) ∧
      (∀ h ∈ s'.history, h.freightId ≠ 1) ∧
      (∀ r ∈ sampleDB.freight, r.userId ≠ 2 → r ∈ s'.freight)) :=
  ⟨rfl, rfl, cascade_delete_unfiltered sampleStore sampleDB rfl rfl 1 2⟩

/-- Mapping a function that fixes every element of a list is the identity. -/
theorem map_eq_self_of {l : List α} {f : α → α} (h : ∀ x ∈ l, f x = x) :
    l.map f = l := by
  induction l with
  | nil => rfl
  | cons a as ih =>
    rw [List.map_cons, h a (List.mem_cons_self a as),
      ih (fun x hx => h x (List.mem_cons_of_mem a hx))]

/-- C10: On an initialized database, `updateFreightDetails` and
`deleteFreightDetails` return `{ success: true }` even when no freight row
matches the given id and owner, and in that case no freight row is modified
or removed. -/
theorem silent_success_on_no_match
    (ds : DataStore) (s : DBState) (hinit : ds.initialized = true)
    (hdb : ds.db = some s) (i : Nat) (d : FreightData) (u : Nat)
    (hnoU : ∀ r ∈ s.freight, ¬(r.id = i ∧ r.userId = d.userId))
    (hnoD : ∀ r ∈ s.freight, ¬(r.id = i ∧ r.userId = u)) :
    (updateFreightDetails i d ds).1 = { success := true, error := none } ∧
    (∃ s1, (updateFreightDetails i d ds).2.db = some s1 ∧ s1.freight = s.freight) ∧
    (deleteFreightDetails i u ds).1 = { success := true, error := none } ∧
    (∃ s2, (deleteFreightDetails i u ds).2.db = some s2 ∧ s2.freight = s.freight) := by
  have hcU : ∀ r ∈ s.freight, (r.id == i && r.userId == d.userId) = false := by
    intro r hr
    by_cases hri : r.id = i
    · have hrd : r.userId ≠ d.userId := fun hc => hnoU r hr ⟨hri, hc⟩
      simp [beq_eq_false_iff_ne, hrd]
    · simp [beq_eq_false_iff_ne, hri]
  have hcD : ∀ r ∈ s.freight, (r.id == i && r.userId == u) = false := by
    intro r hr
    by_cases hri : r.id = i
    · have hrd : r.userId ≠ u := fun hc => hnoD r hr ⟨hri, hc⟩
      simp [beq_eq_false_iff_ne, hrd]
    · simp [beq_eq_false_iff_ne, hri]
  have hmap : s.freight.map (fun r =>
      if r.id == i && r.userId == d.userId then
        { r with origin := d.origin, destination := d.destination,
                 goodsDescription := d.goodsDescription,
                 weight := d.weight, amount := d.amount,
                 discount := jsOrZero d.discount, taxes := jsOrZero d.taxes,
                 ewayBillNumber := jsStrOrNull d.ewayBillNumber,
                 ewayBillDate := jsStrOrNull d.ewayBillDate }
      else r) = s.freight := by
    refine map_eq_self_of (fun r hr => ?_)
    simp [hcU r hr]
  have hfil : s.freight.filter (fun r => !(r.id == i && r.userId == u)) = s.freight := by
    rw [List.filter_eq_self]
    intro r hr
    simp [hcD r hr]
  have keyU : updateFreightDetails i d ds =
      ({ success := true, error := none }, { ds with db := some s }) := by
    simp only [updateFreightDetails, hinit, hdb, if_true, persist]
    rw [hmap]
  have keyD : deleteFreightDetails i u ds =
      ({ success := true, error := none },
       { ds with db := some { s with
           history := s.history.filter (fun h => !(h.freightId == i)) } }) := by
    simp only [deleteFreightDetails, hinit, hdb, if_true, persist]
    rw [hfil]
  rw [keyU, keyD]
  exact ⟨rfl, ⟨s, rfl, rfl⟩, rfl, ⟨_, rfl, rfl⟩⟩

/-- Witness for C10: id 99 matches no row of the sample database, yet both
calls report success and the freight table is untouched. -/
theorem silent_success_on_no_match_witness :
    sampleStore.initialized = true ∧ sampleStore.db = some sampleDB ∧
    (∀ r ∈ sampleDB.freight, ¬(r.id = 99 ∧ r.userId = fullFreightData.userId)) ∧
    (∀ r ∈ sampleDB.freight, ¬(r.id = 99 ∧ r.userId = 2)) ∧
    ((updateFreightDetails 99 fullFreightData sampleStore).1 =
        { success := true, error := none } ∧
      (∃ s1, (updateFreightDetails 99 fullFreightData sampleStore).2.db = some s1 ∧
        s1.freight = sampleDB.freight) ∧
      (deleteFreightDetails 99 2 sampleStore).1 = { success := true, error := none } ∧
      (∃ s2, (deleteFreightDetails 99 2 sampleStore).2.db = some s2 ∧
        s2.freight = sampleDB.freight)) :=
  ⟨rfl, rfl, by decide, by decide,
   silent_success_on_no_match sampleStore sampleDB rfl rfl 99 fullFreightData 2
     (by decide) (by decide)⟩

/-- C2 counterexample: saving an input whose `companyProfileId` is `some 5`
and whose `customFields` is set stores NULL in both columns — the INSERT of
`saveFreightDetails` never lists them — so save-then-get is not the identity
on those fields. -/
theorem freight_roundtrip_cex :
    ((saveFreightDetails fullFreightData emptyStore).2.db.map
        (fun s => s.freight.map (fun r => (r.companyProfileId, r.customFields)))) =
      some [(none, none)] ∧
    fullFreightData.companyProfileId = some 5 ∧
    fullFreightData.customFields = some "serialized custom fields" := by decide

/-- C2 amended: save-then-get round-trips every field `saveFreightDetails`
actually persists — owner, origin, destination, goods description, weight,
amount, discount and taxes (with `|| 0` coalescing), and the two eWay fields
(with `|| null` coalescing) — while `companyProfileId` and `customFields`
are dropped: the stored row has NULL in both columns and the returned record
does not carry them. -/
theorem freight_roundtrip_amended
    (ds : DataStore) (s : DBState) (hinit : ds.initialized = true)
    (hdb : ds.db = some s) (d : FreightData)
    (hfresh : ∀ r ∈ s.freight, r.id < s.nextFreightId) :
    (saveFreightDetails d ds).1 =
      { success := true, id := some s.nextFreightId, error := none } ∧
    getFreightDetails s.nextFreightId (saveFreightDetails d ds).2 =
      some { id := s.nextFreightId, userId := d.userId, origin := d.origin,
             destination := d.destination, goodsDescription := d.goodsDescription,
             weight := d.weight, amount := d.amount,
             discount := jsOrZero d.discount, taxes := jsOrZero d.taxes,
             ewayBillNumber := jsStrOrNull d.ewayBillNumber,
             ewayBillDate := jsStrOrNull d.ewayBillDate, createdAt := s.clock } ∧
    ∃ s', (saveFreightDetails d ds).2.db = some s' ∧
      ∃ r ∈ s'.freight, r.id = s.nextFreightId ∧
        r.companyProfileId = none ∧ r.customFields = none := by
  have key : saveFreightDetails d ds =
      ({ success := true, id := some s.nextFreightId, error := none },
       { ds with db := some { s with
           freight := s.freight ++ [({ id := s.nextFreightId, userId := d.userId, companyProfileId := none, origin := d.origin, destination := d.destination, goodsDescription := d.goodsDescription, weight := d.weight, amount := d.amount, discount := jsOrZero d.discount, taxes := jsOrZero d.taxes, ewayBillNumber := jsStrOrNull d.ewayBillNumber, ewayBillDate := jsStrOrNull d.ewayBillDate, customFields := none, createdAt := s.clock } : FreightRow)],
           nextFreightId := s.nextFreightId + 1, clock := s.clock + 1 } }) := by
    simp only [saveFreightDetails, hinit, hdb, if_true, persist]
  rw [key]
  have hfind : (s.freight ++ [({ id := s.nextFreightId, userId := d.userId, companyProfileId := none, origin := d.origin, destination := d.destination, goodsDescription := d.goodsDescription, weight := d.weight, amount := d.amount, discount := jsOrZero d.discount, taxes := jsOrZero d.taxes, ewayBillNumber := jsStrOrNull d.ewayBillNumber, ewayBillDate := jsStrOrNull d.ewayBillDate, customFields := none, createdAt := s.clock } : FreightRow)]).find?
        (fun r => r.id == s.nextFreightId) = some _ :=
    find_append_fresh (fun r hr => Nat.ne_of_lt (hfresh r hr)) rfl
  refine ⟨rfl, ?_, _, rfl, ?_⟩
  · simp only [getFreightDetails, hinit, if_true, hfind, Option.map_some]
    rfl
  · exact ⟨_, List.mem_append_right _ (List.mem_singleton_self _), rfl, rfl, rfl⟩

/-- Witness for C2 amended: saving `fullFreightData` on the sample database
and reading id 2 back. -/
theorem freight_roundtrip_amended_witness :
    sampleStore.initialized = true ∧ sampleStore.db = some sampleDB ∧
    (∀ r ∈ sampleDB.freight, r.id < sampleDB.nextFreightId) ∧
    ((saveFreightDetails fullFreightData sampleStore).1 =
      { success := true, id := some sampleDB.nextFreightId, error := none } ∧
    getFreightDetails sampleDB.nextFreightId
        (saveFreightDetails fullFreightData sampleStore).2 =
      some { id := sampleDB.nextFreightId, userId := fullFreightData.userId,
             origin := fullFreightData.origin,
             destination := fullFreightData.destination,
             goodsDescription := fullFreightData.goodsDescription,
             weight := fullFreightData.weight, amount := fullFreightData.amount,
             discount := jsOrZero fullFreightData.discount,
             taxes := jsOrZero fullFreightData.taxes,
             ewayBillNumber := jsStrOrNull fullFreightData.ewayBillNumber,
             ewayBillDate := jsStrOrNull fullFreightData.ewayBillDate,
             createdAt := sampleDB.clock } ∧
    ∃ s', (saveFreightDetails fullFreightData sampleStore).2.db = some s' ∧
      ∃ r ∈ s'.freight, r.id = sampleDB.nextFreightId ∧
        r.companyProfileId = none ∧ r.customFields = none) :=
  ⟨rfl, rfl, by decide,
   freight_roundtrip_amended sampleStore sampleDB rfl rfl fullFreightData (by decide)⟩

/-- C7 counterexample: `saveUser` on an uninitialized store throws
`'Database not initialized'` across the public boundary — a throw that is
neither the duplicate-username condition nor backup-import validation. -/
theorem error_policy_cex :
    (saveUser "alice" "h1" uninitStore).1 =
      JsOutcome.thrown "Database not initialized" ∧
    ("Database not initialized" : String) ≠ "Username already exists" := by
  exact ⟨rfl, by decide⟩

/-- C7 amended: on an uninitialized store every operation short-circuits
without touching a database handle: the mutating operations and
`exportBackup` return `{ success: false, error: 'Database not initialized' }`,
the lookup operations return their not-found values (`null` / `[]` /
`{ valid: false }`), and `saveUser` — the whole registration path, not only
its duplicate-username case — throws `'Database not initialized'`. -/
theorem error_policy_amended
    (ds : DataStore) (hinit : ds.initialized = false)
    (d : FreightData) (pd : ProfileData) (cd : CustomFieldData)
    (i u f : Nat) (un ph dt : String) :
    saveFreightDetails d ds =
      ({ success := false, id := none, error := some "Database not initialized" }, ds) ∧
    updateFreightDetails i d ds =
      ({ success := false, error := some "Database not initialized" }, ds) ∧
    deleteFreightDetails i u ds =
      ({ success := false, error := some "Database not initialized" }, ds) ∧
    recordDocumentGeneration f dt ds =
      ({ success := false, error := some "Database not initialized" }, ds) ∧
    saveCompanyProfile pd ds =
      ({ success := false, id := none, error := some "Database not initialized" }, ds) ∧
    updateCompanyProfile i pd ds =
      ({ success := false, error := some "Database not initialized" }, ds) ∧
    deleteCompanyProfile i u ds =
      ({ success := false, error := some "Database not initialized" }, ds) ∧
    saveCustomField cd ds =
      ({ success := false, id := none, error := some "Database not initialized" }, ds) ∧
    deleteCustomField i u ds =
      ({ success := false, error := some "Database not initialized" }, ds) ∧
    exportBackup ds = ExportResult.err "Database not initialized" ∧
    getFreightDetails i ds = none ∧
    getUserFreightRecords u ds = [] ∧
    getDocumentHistory f ds = [] ∧
    getUserCompanyProfiles u ds = [] ∧
    getDefaultCompanyProfile u ds = none ∧
    getUserCustomFields u ds = [] ∧
    verifyUser un ph ds = { valid := false, userId := none } ∧
    (saveUser un ph ds).1 = JsOutcome.thrown "Database not initialized" := by
  simp [saveFreightDetails, updateFreightDetails, deleteFreightDetails,
    recordDocumentGeneration, saveCompanyProfile, updateCompanyProfile,
    deleteCompanyProfile, saveCustomField, deleteCustomField, exportBackup,
    getFreightDetails, getUserFreightRecords, getDocumentHistory,
    getUserCompanyProfiles, getDefaultCompanyProfile, getUserCustomFields,
    verifyUser, saveUser, hinit]

/-- Witness for C7 amended at concrete inputs on `uninitStore`. -/
theorem error_policy_amended_witness :
    uninitStore.initialized = false ∧
    (saveFreightDetails fullFreightData uninitStore =
      ({ success := false, id := none, error := some "Database not initialized" },
       uninitStore) ∧
    updateFreightDetails 1 fullFreightData uninitStore =
      ({ success := false, error := some "Database not initialized" }, uninitStore) ∧
    deleteFreightDetails 1 1 uninitStore =
      ({ success := false, error := some "Database not initialized" }, uninitStore) ∧
    recordDocumentGeneration 1 "bilty" uninitStore =
      ({ success := false, error := some "Database not initialized" }, uninitStore) ∧
    saveCompanyProfile defaultProfileData uninitStore =
      ({ success := false, id := none, error := some "Database not initialized" },
       uninitStore) ∧
    updateCompanyProfile 1 defaultProfileData uninitStore =
      ({ success := false, error := some "Database not initialized" }, uninitStore) ∧
    deleteCompanyProfile 1 1 uninitStore =
      ({ success := false, error := some "Database not initialized" }, uninitStore) ∧
    saveCustomField sampleCustomFieldData uninitStore =
      ({ success := false, id := none, error := some "Database not initialized" },
       uninitStore) ∧
    deleteCustomField 1 1 uninitStore =
      ({ success := false, error := some "Database not initialized" }, uninitStore) ∧
    exportBackup uninitStore = ExportResult.err "Database not initialized" ∧
    getFreightDetails 1 uninitStore = none ∧
    getUserFreightRecords 1 uninitStore = [] ∧
    getDocumentHistory 1 uninitStore = [] ∧
    getUserCompanyProfiles 1 uninitStore = [] ∧
    getDefaultCompanyProfile 1 uninitStore = none ∧
    getUserCustomFields 1 uninitStore = [] ∧
    verifyUser "admin" "h" uninitStore = { valid := false, userId := none } ∧
    (saveUser "admin" "h" uninitStore).1 =
      JsOutcome.thrown "Database not initialized") :=
  ⟨rfl, error_policy_amended uninitStore rfl fullFreightData defaultProfileData
     sampleCustomFieldData 1 1 1 "admin" "h" "bilty"⟩

/-- After `unsetOtherDefaults`, no profile other than the exempted id keeps
the default flag for that owner. -/
theorem filter_unset_nil {U e : Nat} {l : List ProfileRow} (h : ∀ p ∈ l, p.id ≠ e) :
    (l.map (unsetFn U e)).filter (fun p => p.userId == U && p.isDefault) = [] := by
  induction l with
  | nil => rfl
  | cons p ps ih =>
    have hpe : (p.id == e) = false := by
      rw [beq_eq_false_iff_ne]
      exact h p (List.mem_cons_self p ps)
    have ih' := ih (fun q hq => h q (List.mem_cons_of_mem p hq))
    by_cases hU : (p.userId == U) = true
    · simp [unsetFn, hpe, hU, List.filter_cons, ih']
    · simp [unsetFn, hpe, hU, List.filter_cons, ih']

/-- The profiles carrying the default flag after an owner-filtered UPDATE with
`isDefault = true` followed by `unsetOtherDefaults` are exactly the rows the
UPDATE matched. -/
theorem updUnset_count (i : Nat) (d : ProfileData) (hdef : d.isDefault = true)
    (l : List ProfileRow) :
    (((l.map (profileUpdFn i d)).map (unsetFn d.userId i)).filter
        (fun p => p.userId == d.userId && p.isDefault)).length
      = (l.filter (fun p => p.id == i && p.userId == d.userId)).length := by
  induction l with
  | nil => rfl
  | cons p ps ih =>
    rw [List.map_map] at ih
    by_cases h1 : (p.id == i) = true <;> by_cases h2 : (p.userId == d.userId) = true
    · simp [profileUpdFn, unsetFn, h1, h2, hdef, List.filter_cons, Function.comp, ih]
    · simp [profileUpdFn, unsetFn, h1, h2, List.filter_cons, Function.comp, ih]
    · simp [profileUpdFn, unsetFn, h1, h2, List.filter_cons, Function.comp, ih]
    · simp [profileUpdFn, unsetFn, h1, h2, List.filter_cons, Function.comp, ih]

/-- No row matches an id that occurs nowhere in the list. -/
theorem filter_idmatch_nil {l : List ProfileRow} {i U : Nat}
    (h : ∀ p ∈ l, p.id ≠ i) :
    l.filter (fun p => p.id == i && p.userId == U) = [] := by
  induction l with
  | nil => rfl
  | cons p ps ih =>
    have hpe : (p.id == i) = false := by
      rw [beq_eq_false_iff_ne]
      exact h p (List.mem_cons_self p ps)
    simp [List.filter_cons, hpe, ih (fun q hq => h q (List.mem_cons_of_mem p hq))]

/-- With duplicate-free ids, a present (id, owner) pair is matched by exactly
one row. -/
theorem count_one_of_nodup {l : List ProfileRow} {i U : Nat}
    (hn : (l.map fun p => p.id).Nodup)
    (hex : ∃ p ∈ l, p.id = i ∧ p.userId = U) :
    (l.filter (fun p => p.id == i && p.userId == U)).length = 1 := by
  induction l with
  | nil => simp at hex
  | cons q qs ih =>
    rw [List.map_cons, List.nodup_cons] at hn
    obtain ⟨hq, hqs⟩ := hn
    by_cases hc : (q.id == i && q.userId == U) = true
    · have hqi : q.id = i := eq_of_beq (Bool.and_eq_true_iff.mp hc).1
      have htail : ∀ p ∈ qs, p.id ≠ i := by
        intro p hp he
        exact hq (hqi ▸ he ▸ List.mem_map_of_mem (fun p => p.id) hp)
      simp [List.filter_cons, hc, filter_idmatch_nil htail]
    · have hex' : ∃ p ∈ qs, p.id = i ∧ p.userId = U := by
        obtain ⟨p, hp, h3, h4⟩ := hex
        rcases List.mem_cons.mp hp with rfl | hp'
        · simp [h3, h4] at hc
        · exact ⟨p, hp', h3, h4⟩
      simp [List.filter_cons, hc, ih hqs hex']

/-- C4 counterexample: owner 1 has exactly one default profile (id 1);
`updateCompanyProfile 99` with `isDefault = true` matches no row, yet still
runs `unsetOtherDefaults`, leaving owner 1 with zero default profiles — not
exactly one. -/
theorem default_exclusivity_cex :
    (updateCompanyProfile 99 defaultProfileData oneDefaultStore).1 =
      { success := true, error := none } ∧
    defaultProfileData.isDefault = true ∧ defaultProfileData.userId = 1 ∧
    defaultCount 1 oneDefaultDB.profiles = 1 ∧
    ((updateCompanyProfile 99 defaultProfileData oneDefaultStore).2.db.map
        (fun s => defaultCount 1 s.profiles)) = some 0 := by decide

/-- C4 amended: after `saveCompanyProfile` with `isDefault = true` (fresh
AUTOINCREMENT id) exactly one profile of the owner is default; after
`updateCompanyProfile` with `isDefault = true` the same holds provided the
given id actually belongs to a profile of that owner — when it does not, the
call instead clears every default of the owner. -/
theorem default_exclusivity_amended
    (ds : DataStore) (s : DBState) (hinit : ds.initialized = true)
    (hdb : ds.db = some s) (d : ProfileData) (hdef : d.isDefault = true) (i : Nat)
    (hfresh : ∀ p ∈ s.profiles, p.id < s.nextProfileId)
    (hnodup : (s.profiles.map fun p => p.id).Nodup)
    (hex : ∃ p ∈ s.profiles, p.id = i ∧ p.userId = d.userId) :
    (∃ s1, (saveCompanyProfile d ds).2.db = some s1 ∧
      defaultCount d.userId s1.profiles = 1) ∧
    (∃ s2, (updateCompanyProfile i d ds).2.db = some s2 ∧
      defaultCount d.userId s2.profiles = 1) := by
  constructor
  · simp only [saveCompanyProfile, hinit, hdb, if_true, hdef, persist, unsetOtherDefaults]
    refine ⟨_, rfl, ?_⟩
    unfold defaultCount
    rw [List.map_append, List.filter_append,
      filter_unset_nil (fun p hp => Nat.ne_of_lt (hfresh p hp))]
    simp [unsetFn, hdef]
  · simp only [updateCompanyProfile, hinit, hdb, if_true, hdef, persist, unsetOtherDefaults]
    refine ⟨_, rfl, ?_⟩
    unfold defaultCount
    rw [updUnset_count i d hdef]
    exact count_one_of_nodup hnodup hex

/-- Witness for C4 amended: updating profile 1 of owner 1 (which exists) and
saving a fresh default profile, each leaving exactly one default. -/
theorem default_exclusivity_amended_witness :
    oneDefaultStore.initialized = true ∧ oneDefaultStore.db = some oneDefaultDB ∧
    defaultProfileData.isDefault = true ∧
    (∀ p ∈ oneDefaultDB.profiles, p.id < oneDefaultDB.nextProfileId) ∧
    (oneDefaultDB.profiles.map fun p => p.id).Nodup ∧
    (∃ p ∈ oneDefaultDB.profiles, p.id = 1 ∧ p.userId = defaultProfileData.userId) ∧
    ((∃ s1, (saveCompanyProfile defaultProfileData oneDefaultStore).2.db = some s1 ∧
        defaultCount defaultProfileData.userId s1.profiles = 1) ∧
     (∃ s2, (updateCompanyProfile 1 defaultProfileData oneDefaultStore).2.db = some s2 ∧
        defaultCount defaultProfileData.userId s2.profiles = 1)) :=
  ⟨rfl, rfl, rfl, by decide, by decide, by decide,
   default_exclusivity_amended oneDefaultStore oneDefaultDB rfl rfl
     defaultProfileData rfl 1 (by decide) (by decide) (by decide)⟩

/-- A permutation of a list whose keys are duplicate-free is pairwise
key-distinct (in boolean form). -/
theorem pairwise_key_sorted {α β : Type} [BEq β] [LawfulBEq β] (key : α → β)
    {l m : List α} (hperm : m.Perm l) (h : (l.map key).Nodup) :
    m.Pairwise (fun a b => (key a == key b) = false) := by
  have h1 : l.Pairwise (fun a b => key a ≠ key b) := List.pairwise_map.mp h
  have h2 : m.Pairwise (fun a b => key a ≠ key b) :=
    (List.Perm.pairwise_iff (fun hxy => hxy.symm) hperm).mpr h1
  exact h2.imp (fun hab => beq_eq_false_iff_ne.mpr hab)

/-- C8: Backup round-trip — on an initialized database (whose per-table ids
and usernames are duplicate-free, as the schema's PRIMARY KEY and UNIQUE
constraints guarantee), `exportBackup` succeeds and `importBackup` of the
exported snapshot succeeds and reproduces exactly the same set of rows in
every table, ids and field values included. -/
theorem backup_roundtrip
    (ds : DataStore) (s : DBState) (hinit : ds.initialized = true)
    (hdb : ds.db = some s) (ds2 : DataStore)
    (hidU : (s.users.map fun r => r.id).Nodup)
    (hname : (s.users.map fun r => r.username).Nodup)
    (hidF : (s.freight.map fun r => r.id).Nodup)
    (hidH : (s.history.map fun r => r.id).Nodup)
    (hidP : (s.profiles.map fun r => r.id).Nodup)
    (hidC : (s.customFields.map fun r => r.id).Nodup) :
    ∃ b, exportBackup ds = ExportResult.ok b ∧
      (importBackup b ds2).1 = { success := true, error := none } ∧
      ∃ s2, (importBackup b ds2).2.db = some s2 ∧
        (∀ r, r ∈ s2.users ↔ r ∈ s.users) ∧
        (∀ r, r ∈ s2.freight ↔ r ∈ s.freight) ∧
        (∀ r, r ∈ s2.history ↔ r ∈ s.history) ∧
        (∀ r, r ∈ s2.profiles ↔ r ∈ s.profiles) ∧
        (∀ r, r ∈ s2.customFields ↔ r ∈ s.customFields) := by
  have permU := perm_sortBy (fun (a b : UserRow) => decide (a.id ≤ b.id)) s.users
  have permF := perm_sortBy (fun (a b : FreightRow) => decide (a.id ≤ b.id)) s.freight
  have permH := perm_sortBy (fun (a b : HistoryRow) => decide (a.id ≤ b.id)) s.history
  have permP := perm_sortBy (fun (a b : ProfileRow) => decide (a.id ≤ b.id)) s.profiles
  have permC := perm_sortBy (fun (a b : CustomFieldRow) => decide (a.id ≤ b.id)) s.customFields
  have pU : (sortBy (fun (a b : UserRow) => decide (a.id ≤ b.id)) s.users).Pairwise
      (fun a b => (a.id == b.id || a.username == b.username) = false) := by
    have hand := (pairwise_key_sorted (fun r : UserRow => r.id) permU hidU).and
      (pairwise_key_sorted (fun r : UserRow => r.username) permU hname)
    exact hand.imp (fun hab => by rw [Bool.or_eq_false_iff]; exact hab)
  have hU := @bulkInsert_ok _ (fun r x => x.id == r.id || x.username == r.username)
    (sortBy (fun (a b : UserRow) => decide (a.id ≤ b.id)) s.users) [] (by simpa using pU)
  have hF := @bulkInsert_ok _ (fun (r x : FreightRow) => x.id == r.id)
    (sortBy (fun (a b : FreightRow) => decide (a.id ≤ b.id)) s.freight) []
    (by simpa using pairwise_key_sorted (fun r : FreightRow => r.id) permF hidF)
  have hH := @bulkInsert_ok _ (fun (r x : HistoryRow) => x.id == r.id)
    (sortBy (fun (a b : HistoryRow) => decide (a.id ≤ b.id)) s.history) []
    (by simpa using pairwise_key_sorted (fun r : HistoryRow => r.id) permH hidH)
  have hP := @bulkInsert_ok _ (fun (r x : ProfileRow) => x.id == r.id)
    (sortBy (fun (a b : ProfileRow) => decide (a.id ≤ b.id)) s.profiles) []
    (by simpa using pairwise_key_sorted (fun r : ProfileRow => r.id) permP hidP)
  have hC := @bulkInsert_ok _ (fun (r x : CustomFieldRow) => x.id == r.id)
    (sortBy (fun (a b : CustomFieldRow) => decide (a.id ≤ b.id)) s.customFields) []
    (by simpa using pairwise_key_sorted (fun r : CustomFieldRow => r.id) permC hidC)
  have hexp : exportBackup ds = ExportResult.ok
      { version := "1.0",
        data := { users := sortBy (fun (a b : UserRow) => decide (a.id ≤ b.id)) s.users,
                  freight := sortBy (fun (a b : FreightRow) => decide (a.id ≤ b.id)) s.freight,
                  history := sortBy (fun (a b : HistoryRow) => decide (a.id ≤ b.id)) s.history,
                  profiles := sortBy (fun (a b : ProfileRow) => decide (a.id ≤ b.id)) s.profiles,
                  customFields := sortBy (fun (a b : CustomFieldRow) => decide (a.id ≤ b.id)) s.customFields } } := by
    simp only [exportBackup, hinit, hdb, if_true]
  have hv : (("1.0" : String) == "") = false := by decide
  have himp : importBackup
      { version := "1.0",
        data := { users := sortBy (fun (a b : UserRow) => decide (a.id ≤ b.id)) s.users,
                  freight := sortBy (fun (a b : FreightRow) => decide (a.id ≤ b.id)) s.freight,
                  history := sortBy (fun (a b : HistoryRow) => decide (a.id ≤ b.id)) s.history,
                  profiles := sortBy (fun (a b : ProfileRow) => decide (a.id ≤ b.id)) s.profiles,
                  customFields := sortBy (fun (a b : CustomFieldRow) => decide (a.id ≤ b.id)) s.customFields } } ds2 =
      ({ success := true, error := none },
       { db := some (importedState
           (sortBy (fun (a b : UserRow) => decide (a.id ≤ b.id)) s.users)
           (sortBy (fun (a b : FreightRow) => decide (a.id ≤ b.id)) s.freight)
           (sortBy (fun (a b : HistoryRow) => decide (a.id ≤ b.id)) s.history)
           (sortBy (fun (a b : ProfileRow) => decide (a.id ≤ b.id)) s.profiles)
           (sortBy (fun (a b : CustomFieldRow) => decide (a.id ≤ b.id)) s.customFields)),
         initialized := true }) := by
    simp only [importBackup, hv, Bool.false_eq_true, if_false, hU, hF, hH, hP, hC,
      List.nil_append, persist]
  refine ⟨_, hexp, ?_, ?_⟩
  · rw [himp]
  · refine ⟨importedState
        (sortBy (fun (a b : UserRow) => decide (a.id ≤ b.id)) s.users)
        (sortBy (fun (a b : FreightRow) => decide (a.id ≤ b.id)) s.freight)
        (sortBy (fun (a b : HistoryRow) => decide (a.id ≤ b.id)) s.history)
        (sortBy (fun (a b : ProfileRow) => decide (a.id ≤ b.id)) s.profiles)
        (sortBy (fun (a b : CustomFieldRow) => decide (a.id ≤ b.id)) s.customFields),
      ?_, ?_, ?_, ?_, ?_, ?_⟩
    · rw [himp]
    · exact fun r => permU.mem_iff
    · exact fun r => permF.mem_iff
    · exact fun r => permH.mem_iff
    · exact fun r => permP.mem_iff
    · exact fun r => permC.mem_iff

/-- Witness for C8: export/import round-trip of the sample database. -/
theorem backup_roundtrip_witness :
    sampleStore.initialized = true ∧ sampleStore.db = some sampleDB ∧
    (sampleDB.users.map fun r => r.id).Nodup ∧
    (sampleDB.users.map fun r => r.username).Nodup ∧
    (sampleDB.freight.map fun r => r.id).Nodup ∧
    (sampleDB.history.map fun r => r.id).Nodup ∧
    (sampleDB.profiles.map fun r => r.id).Nodup ∧
    (sampleDB.customFields.map fun r => r.id).Nodup ∧
    (∃ b, exportBackup sampleStore = ExportResult.ok b ∧
      (importBackup b uninitStore).1 = { success := true, error := none } ∧
      ∃ s2, (importBackup b uninitStore).2.db = some s2 ∧
        (∀ r, r ∈ s2.users ↔ r ∈ sampleDB.users) ∧
        (∀ r, r ∈ s2.freight ↔ r ∈ sampleDB.freight) ∧
        (∀ r, r ∈ s2.history ↔ r ∈ sampleDB.history) ∧
        (∀ r, r ∈ s2.profiles ↔ r ∈ sampleDB.profiles) ∧
        (∀ r, r ∈ s2.customFields ↔ r ∈ sampleDB.customFields)) :=
  ⟨rfl, rfl, by decide, by decide, by decide, by decide, by decide, by decide,
   backup_roundtrip sampleStore sampleDB rfl rfl uninitStore (by decide) (by decide)
     (by decide) (by decide) (by decide) (by decide)⟩

end FreightStore
